import Mathlib

/-!
Verification development for the `ual_lubw_co_export` module: an InfluxDB Flux
query builder plus a pandas result-normalization and join pipeline.

The Python module is shallowly embedded:
* Flux query strings are built by the same string concatenations as the
  source f-strings, with Python's `str.strip()` modelled by `pythonStrip`.
* pandas `DataFrame`s are modelled by `DF`: an optional named index plus an
  ordered column list and rows of cells (`Val`).
* the fallible query builder returns `Except String String`, the error value
  being the message of the `RuntimeError` raised by `_as_flux_or_filter`
  (the specification calls this failure `InvalidSpecError`).
* the external `InfluxDBConnector` query executor is an opaque function
  (`Env`), and CSV-sink writes are collected as an ordered list of
  `(path, table)` pairs returned next to each fetch result.
-/

set_option linter.unusedVariables false
set_option maxRecDepth 100000

namespace UalLubwCoExport

/-- Cell values appearing in a query-result table: a scalar (integer or
string) or a missing value (pandas `NaN`/`NaT`). -/
inductive Val where
  | na : Val
  | int : Int → Val
  | str : String → Val
deriving DecidableEq, Repr

/-- Model of a pandas `DataFrame`: an optional index name, optional explicit
index labels (`none` models the default `RangeIndex`), an ordered list of
column names and the rows (one cell per column). -/
structure DF where
  idxName : Option String
  idx : Option (List Val)
  cols : List String
  rows : List (List Val)
deriving DecidableEq, Repr

/-- Model of `pd.DataFrame()`: the empty frame. -/
def DF.emptyDF : DF := ⟨none, none, [], []⟩

/-- Model of pandas `DataFrame.empty`: true when either axis has length 0. -/
def DF.isEmptyTab (d : DF) : Bool := d.rows.isEmpty || d.cols.isEmpty

/-- Effective index labels of a frame: the explicit labels when an index was
set, otherwise the default `RangeIndex` values `0, 1, ...`. -/
def DF.labels (d : DF) : List Val :=
  match d.idx with
  | some ls => ls
  | none => (List.range d.rows.length).map (fun i => Val.int i)

/-- Model of `result: pd.DataFrame | Iterable[pd.DataFrame]` as dispatched by
`isinstance(result, list)`: a single frame or a list of frames. -/
abbrev RawResult := Sum DF (List DF)

/-- Characters stripped by Python's `str.strip()`. -/
def pyIsSpace (c : Char) : Bool :=
  c = ' ' || c = '\t' || c = '\n' || c = '\r' || c = '\x0b' || c = '\x0c'

/-- Model of Python's `str.strip()`: drop leading and trailing whitespace. -/
def pythonStrip (s : String) : String :=
  String.mk (((s.data.dropWhile pyIsSpace).reverse.dropWhile pyIsSpace).reverse)

/-- Model of `" or ".join(parts)` as used by `_as_flux_or_filter`. -/
def orJoin : List String → String
  | [] => ""
  | [x] => x
  | x :: xs => x ++ " or " ++ orJoin xs

/-- Embedding of `_as_flux_or_filter` (`ual_lubw_co_export.py` lines 11-14):
raises (`Except.error`) when `fields` is empty, otherwise joins one
`r._field == "<f>"` term per field with `" or "`. -/
def as_flux_or_filter (fields : List String) : Except String String :=
  if fields.isEmpty then
    .error "At least one field is required for query generation."
  else
    .ok (orJoin (fields.map (fun field => "r._field == \"" ++ field ++ "\"")))

/-- Embedding of `_as_flux_rename_map` (lines 17-21).  Note: this helper is
never called anywhere in the module. -/
def as_flux_rename_map (rename_map : List (String × String)) : String :=
  if rename_map.isEmpty then ""
  else String.intercalate ", "
    (rename_map.map (fun p => p.1 ++ ": \"" ++ p.2 ++ "\""))

/-- Embedding of `build_hourly_source_query` (lines 64-83).  The `rename_map`
parameter is accepted (and defaulted by `rename_map = rename_map or {}`) but
is not used anywhere in the produced f-string. -/
def build_hourly_source_query (start stop bucket measurement topic : String)
    (fields : List String) (rename_map : List (String × String))
    (aggregate_every : String) : Except String String :=
  match as_flux_or_filter fields with
  | .error e => .error e
  | .ok orFilter =>
      .ok (pythonStrip
        ("\nfrom(bucket: \"" ++ bucket
          ++ "\")\n  |> range(start: " ++ start ++ ", stop: " ++ stop
          ++ ")\n  |> filter(fn: (r) => r._measurement == \"" ++ measurement
          ++ "\" and r.topic == \"" ++ topic
          ++ "\")\n  |> filter(fn: (r) => " ++ orFilter
          ++ ")\n  |> aggregateWindow(every: " ++ aggregate_every
          ++ ", fn: mean, createEmpty: false)"
          ++ "\n  |> pivot(rowKey: [\"_time\"], columnKey: [\"_field\"], valueColumn: \"_value\")"
          ++ "\n"))

/-- Cell of row `r` (whose cells are positionally aligned with `dcols`) in the
column named `c`; missing columns read as `NaN`. -/
def projectCell (dcols : List String) (r : List Val) (c : String) : Val :=
  ((dcols.zip r).lookup c).getD .na

/-- Column list of `pd.concat`: union of the fragments' columns in order of
first appearance (identical fragment schemas simply keep that schema). -/
def concatColumns (dfs : List DF) : List String :=
  dfs.foldl (fun acc d => acc ++ d.cols.filter (fun c => (!(acc.contains c)))) []

/-- Model of `pd.concat(result, ignore_index=True)`: rows of all fragments in
sequence order, each projected onto the united column list; the index is reset
to the default `RangeIndex`. -/
def concatIgnoreIndex (dfs : List DF) : DF :=
  let cols := concatColumns dfs
  { idxName := none, idx := none, cols := cols,
    rows := dfs.flatMap (fun d => d.rows.map (fun r => cols.map (projectCell d.cols r))) }

/-- Embedding of `_normalize_df` (lines 24-29). -/
def normalize_df : RawResult → DF
  | .inl df => df
  | .inr [] => DF.emptyDF
  | .inr dfs => concatIgnoreIndex dfs

/-- The metadata columns dropped by the cleaning step (lines 36-39 / 52-55). -/
def metadata_columns : List String :=
  ["result", "table", "_start", "_stop", "_measurement", "topic", "host"]

/-- Model of `df.drop(columns=toDrop, errors="ignore")`: remove every column
whose name is listed; absent names are a no-op. -/
def dropColumns (df : DF) (toDrop : List String) : DF :=
  { df with
    cols := df.cols.filter (fun c => (!(toDrop.contains c))),
    rows := df.rows.map (fun r =>
      ((df.cols.zip r).filter (fun p => (!(toDrop.contains p.1)))).map Prod.snd) }

/-- Model of `df.rename(columns=m)`: keys absent from the frame are silently
ignored; cells are untouched. -/
def renameColumns (df : DF) (m : List (String × String)) : DF :=
  { df with cols := df.cols.map (fun c => ((m.lookup c).getD c)) }

/-- Model of the `if "_time" in df.columns: df = df.set_index("_time",
drop=True)` step: the `_time` column becomes the (named) index and is removed
from the regular columns. -/
def setTimeIndex (df : DF) : DF :=
  if df.cols.contains "_time" then
    { idxName := some "_time",
      idx := some (df.rows.map (fun r => projectCell df.cols r "_time")),
      cols := df.cols.filter (fun c => c != "_time"),
      rows := df.rows.map (fun r =>
        ((df.cols.zip r).filter (fun p => p.1 != "_time")).map Prod.snd) }
  else df

/-- Embedding of `_clean_query_df_with_rename` (lines 45-61).  The empty
`rename_map` list also stands for Python's `None` (both are falsy in
`if rename_map:`). -/
def clean_query_df_with_rename (result : RawResult)
    (rename_map : List (String × String)) : DF :=
  let df := normalize_df result
  if df.isEmptyTab then df
  else
    let df := dropColumns df metadata_columns
    let df := if rename_map.isEmpty then df else renameColumns df rename_map
    setTimeIndex df

/-- Embedding of `_clean_query_df` (lines 32-42): the rename-free variant. -/
def clean_query_df (result : RawResult) : DF :=
  let df := normalize_df result
  if df.isEmptyTab then df
  else setTimeIndex (dropColumns df metadata_columns)

/-- Model of `a.join(b, how=how)` on the index, for frames with unique index
labels (set notes in §3 of the spec; upstream uniqueness is not enforced).
`"inner"` keeps `a`'s labels that also occur in `b`, in `a`'s order; `"left"`
keeps all of `a`'s labels, `"right"` all of `b`'s.  Any other string is
modelled as the outer join taking `a`'s labels then `b`'s remaining ones
(pandas additionally sorts outer-join labels, and raises on an invalid `how`;
no claim depends on either). -/
def dfJoin (a b : DF) (how : String) : DF :=
  let az := a.labels.zip a.rows
  let bz := b.labels.zip b.rows
  if how = "inner" then
    let pairs := az.filterMap (fun p =>
      (bz.find? (fun q => decide (q.1 = p.1))).map (fun q => (p.1, p.2 ++ q.2)))
    { idxName := a.idxName, idx := some (pairs.map Prod.fst),
      cols := a.cols ++ b.cols, rows := pairs.map Prod.snd }
  else if how = "left" then
    let pairs := az.map (fun p =>
      match bz.find? (fun q => decide (q.1 = p.1)) with
      | some q => (p.1, p.2 ++ q.2)
      | none => (p.1, p.2 ++ List.replicate b.cols.length Val.na))
    { idxName := a.idxName, idx := some (pairs.map Prod.fst),
      cols := a.cols ++ b.cols, rows := pairs.map Prod.snd }
  else if how = "right" then
    let pairs := bz.map (fun q =>
      match az.find? (fun p => decide (p.1 = q.1)) with
      | some p => (q.1, p.2 ++ q.2)
      | none => (q.1, List.replicate a.cols.length Val.na ++ q.2))
    { idxName := a.idxName, idx := some (pairs.map Prod.fst),
      cols := a.cols ++ b.cols, rows := pairs.map Prod.snd }
  else
    let leftPairs := az.map (fun p =>
      match bz.find? (fun q => decide (q.1 = p.1)) with
      | some q => (p.1, p.2 ++ q.2)
      | none => (p.1, p.2 ++ List.replicate b.cols.length Val.na))
    let rightOnly := bz.filter (fun q => (!(a.labels.contains q.1)))
    let pairs := leftPairs ++ rightOnly.map (fun q =>
      (q.1, List.replicate a.cols.length Val.na ++ q.2))
    { idxName := a.idxName, idx := some (pairs.map Prod.fst),
      cols := a.cols ++ b.cols, rows := pairs.map Prod.snd }

/-- The join step of `fetch_hourly_ual_lubw` (lines 139-147): the two empty
cases degrade to the other side (`.copy()` is the identity in this pure
model), the both-empty case yields an empty frame whose index is named
`_time`, and otherwise the frames are joined on the index. -/
def joinNormalized (a b : DF) (how : String) : DF :=
  if a.isEmptyTab && b.isEmptyTab then { DF.emptyDF with idxName := some "_time" }
  else if a.isEmptyTab then b
  else if b.isEmptyTab then a
  else dfJoin a b how

/-- Model of the external `InfluxDBConnector` collaborator: from the
connection parameters `(url, token, organization)` and a query string it
returns a raw result (`query_api.query_data_frame`).  Treated as a
deterministic opaque function. -/
structure Env where
  query_data_frame : String → String → String → String → RawResult

/-- Replace every occurrence of `pat` (left to right, non-overlapping) by
`rep`; `fuel` bounds the recursion and is instantiated with the input length. -/
def replaceFuel (pat rep : List Char) : Nat → List Char → List Char
  | 0, s => s
  | _ + 1, [] => []
  | fuel + 1, c :: rest =>
    if pat.isPrefixOf (c :: rest) && (!(pat.isEmpty)) then
      rep ++ replaceFuel pat rep fuel (List.drop (pat.length - 1) rest)
    else c :: replaceFuel pat rep fuel rest

/-- Model of `template.format(sensor=sensor)` for the topic templates: every
occurrence of the `\x7bsensor\x7d` placeholder is replaced by the sensor
name (the templates used here contain no other `format` fields). -/
def formatSensor (template sensor : String) : String :=
  String.mk (replaceFuel "\x7bsensor\x7d".data sensor.data template.data.length template.data)

/-- Modelled from the spec: the repository's `InfluxBuckets` enumeration of
bucket-name constants is static configuration outside the provided source;
its two values used as defaults are modelled as opaque distinct strings. -/
def UAL_MINUTE_MEASUREMENT_BUCKET : String := "ual_minute_measurement_bucket"

/-- Modelled from the spec: see `UAL_MINUTE_MEASUREMENT_BUCKET`. -/
def LUBW_HOUR_BUCKET : String := "lubw_hour_bucket"

/-- The inline default UAL field list (`ual_fields or [...]`, line 108). -/
def default_ual_fields : List String :=
  ["CO", "RAW_ADC_CO_A", "RAW_ADC_CO_W", "sht_temp", "sht_humid"]

/-- The inline default LUBW field list (`lubw_fields or [...]`, line 109). -/
def default_lubw_fields : List String := ["CO", "TEMP"]

/-- Model of Python's `xs or default` for lists, where `[]` also stands for
`None` (both falsy). -/
def orDefault (l d : List String) : List String := if l.isEmpty then d else l

/-- Embedding of `fetch_hourly_ual_lubw` (lines 86-150).  The returned pair is
the joined frame together with the ordered CSV-sink writes. -/
def fetch_hourly_ual_lubw (env : Env)
    (url token organization start stop ual_sensor lubw_sensor : String)
    (ual_bucket lubw_bucket ual_measurement lubw_measurement : String)
    (ual_topic_template lubw_topic_template : String)
    (ual_fields lubw_fields : List String)
    (ual_rename lubw_rename : List (String × String))
    (aggregate_every join_how output_csv_path : String) :
    Except String (DF × List (String × DF)) := do
  let ualFields := orDefault ual_fields default_ual_fields
  let lubwFields := orDefault lubw_fields default_lubw_fields
  let ual_query ← build_hourly_source_query start stop ual_bucket ual_measurement
    (formatSensor ual_topic_template ual_sensor) ualFields ual_rename aggregate_every
  let lubw_query ← build_hourly_source_query start stop lubw_bucket lubw_measurement
    (formatSensor lubw_topic_template lubw_sensor) lubwFields lubw_rename aggregate_every
  let ual_df := clean_query_df_with_rename
    (env.query_data_frame url token organization ual_query) ual_rename
  let lubw_df := clean_query_df_with_rename
    (env.query_data_frame url token organization lubw_query) lubw_rename
  let joined_df := joinNormalized ual_df lubw_df join_how
  pure (joined_df, [(output_csv_path, joined_df)])

/-- Embedding of `fetch_hourly_ual_lubw_debug` (lines 153-232): it cleans and
writes each side's pre-join frame, then delegates the join to
`fetch_hourly_ual_lubw` (re-running the queries against the same
deterministic executor, as the Python code re-queries). -/
def fetch_hourly_ual_lubw_debug (env : Env)
    (url token organization start stop ual_sensor lubw_sensor : String)
    (ual_bucket lubw_bucket ual_measurement lubw_measurement : String)
    (ual_topic_template lubw_topic_template : String)
    (ual_fields lubw_fields : List String)
    (ual_rename lubw_rename : List (String × String))
    (aggregate_every join_how ual_csv_path lubw_csv_path joined_csv_path : String) :
    Except String (DF × List (String × DF)) := do
  let ualFields := orDefault ual_fields default_ual_fields
  let lubwFields := orDefault lubw_fields default_lubw_fields
  let ual_query ← build_hourly_source_query start stop ual_bucket ual_measurement
    (formatSensor ual_topic_template ual_sensor) ualFields ual_rename aggregate_every
  let ual_df := clean_query_df_with_rename
    (env.query_data_frame url token organization ual_query) ual_rename
  let lubw_query ← build_hourly_source_query start stop lubw_bucket lubw_measurement
    (formatSensor lubw_topic_template lubw_sensor) lubwFields lubw_rename aggregate_every
  let lubw_df := clean_query_df_with_rename
    (env.query_data_frame url token organization lubw_query) lubw_rename
  let res ← fetch_hourly_ual_lubw env url token organization start stop
    ual_sensor lubw_sensor ual_bucket lubw_bucket ual_measurement lubw_measurement
    ual_topic_template lubw_topic_template ualFields lubwFields ual_rename lubw_rename
    aggregate_every join_how joined_csv_path
  pure (res.1, (ual_csv_path, ual_df) :: (lubw_csv_path, lubw_df) :: res.2)

/-- Embedding of `fetch_hourly_source` (lines 235-265): the single-source
fetch; `output_csv_path = None` or `""` (falsy) suppresses the sink write. -/
def fetch_hourly_source (env : Env)
    (url token organization start stop bucket measurement topic : String)
    (fields : List String) (rename_map : List (String × String))
    (aggregate_every : String) (output_csv_path : Option String) :
    Except String (DF × List (String × DF)) := do
  let query ← build_hourly_source_query start stop bucket measurement topic
    fields rename_map aggregate_every
  let df := clean_query_df_with_rename
    (env.query_data_frame url token organization query) rename_map
  let writes := match output_csv_path with
    | some p => if p.isEmpty then [] else [(p, df)]
    | none => []
  pure (df, writes)

/-- Embedding of `build_co_hourly_join_query` (lines 268-303), the deprecated
CO-specific two-source join builder kept for backwards compatibility. -/
def build_co_hourly_join_query
    (start stop ual_sensor lubw_sensor ual_bucket lubw_bucket : String) :
    Except String String :=
  match build_hourly_source_query start stop ual_bucket "measurement_data"
      ("sensors/measurement/" ++ ual_sensor)
      ["CO", "RAW_ADC_CO_A", "RAW_ADC_CO_W", "sht_temp", "sht_humid"]
      [("CO", "CO_ual"), ("sht_temp", "UAL_TEMP")] "1h" with
  | .error e => .error e
  | .ok ual =>
    match build_hourly_source_query start stop lubw_bucket "lubw_hour_data"
        ("sensors/lubw-hour/" ++ lubw_sensor) ["CO", "TEMP"]
        [("CO", "CO_lubw"), ("TEMP", "LUBW_TEMP")] "1h" with
    | .error e => .error e
    | .ok lubw =>
      .ok (pythonStrip
        ("\nual = " ++ ual ++ "\n\nlubw = " ++ lubw
          ++ "\n\njoin(tables: \x7bual: ual, lubw: lubw\x7d, on: [\"_time\"], method: \"inner\")"
          ++ "\n"))

/-- Embedding of `fetch_co_hourly_ual_lubw` (lines 340-368): the deprecated
CO-report fetch, delegating to the generic fetch with hardcoded parameters. -/
def fetch_co_hourly_ual_lubw (env : Env)
    (url token organization start stop ual_sensor lubw_sensor output_csv_path : String) :
    Except String (DF × List (String × DF)) :=
  fetch_hourly_ual_lubw env url token organization start stop ual_sensor lubw_sensor
    UAL_MINUTE_MEASUREMENT_BUCKET LUBW_HOUR_BUCKET
    "measurement_data" "lubw_hour_data"
    "sensors/measurement/\x7bsensor\x7d" "sensors/lubw-hour/\x7bsensor\x7d"
    ["CO", "RAW_ADC_CO_A", "RAW_ADC_CO_W", "sht_temp", "sht_humid"] ["CO", "TEMP"]
    [("CO", "CO_ual"), ("sht_temp", "UAL_TEMP")]
    [("CO", "CO_lubw"), ("TEMP", "LUBW_TEMP")]
    "1h" "inner" output_csv_path

/-- Splitting a character list into newline-separated lines (the shape in
which a Flux query built here lists its pipeline clauses). -/
def splitLines : List Char → List (List Char)
  | [] => [[]]
  | c :: rest =>
    if c = '\n' then [] :: splitLines rest
    else
      match splitLines rest with
      | [] => [[c]]
      | h :: t => (c :: h) :: t

/-- Substring test on character lists. -/
def listHasSub : List Char → List Char → Bool
  | _, [] => true
  | [], _ :: _ => false
  | c :: rest, p :: ps => (p :: ps).isPrefixOf (c :: rest) || listHasSub rest (p :: ps)

/-- Substring test on strings. -/
def hasSubstr (s pat : String) : Bool := listHasSub s.data pat.data

/-- A query line is a field-filter clause when it is the filter stage over
`r._field`. -/
def isFieldFilterLine (l : List Char) : Bool :=
  "  |> filter(fn: (r) => r._field".data.isPrefixOf l

/-- A query line is an aggregation clause when it is the `aggregateWindow`
stage. -/
def isAggregateLine (l : List Char) : Bool :=
  "  |> aggregateWindow(".data.isPrefixOf l

/-- A string free of newline characters (so that it cannot fabricate or break
a pipeline line of the generated query). -/
def noNewline (s : String) : Prop := '\n' ∉ s.data

instance (s : String) : Decidable (noNewline s) := by
  unfold noNewline; infer_instance

/-- The stripped query text produced by `build_hourly_source_query` on a
non-empty field list (the f-string without its outer newlines). -/
def built_hourly_query (start stop bucket measurement topic : String)
    (fields : List String) (aggregate_every : String) : String :=
  "from(bucket: \"" ++ bucket ++ "\")\n  |> range(start: " ++ start
    ++ ", stop: " ++ stop ++ ")\n  |> filter(fn: (r) => r._measurement == \""
    ++ measurement ++ "\" and r.topic == \"" ++ topic
    ++ "\")\n  |> filter(fn: (r) => "
    ++ orJoin (fields.map (fun field => "r._field == \"" ++ field ++ "\""))
    ++ ")\n  |> aggregateWindow(every: " ++ aggregate_every
    ++ ", fn: mean, createEmpty: false)"
    ++ "\n  |> pivot(rowKey: [\"_time\"], columnKey: [\"_field\"], valueColumn: \"_value\")"

/-- First pipeline line of the generated query: the bucket selection. -/
def queryLine1 (bucket : String) : List Char :=
  "from(bucket: \"".data ++ bucket.data ++ "\")".data

/-- Second pipeline line: the time range restriction. -/
def queryLine2 (start stop : String) : List Char :=
  "  |> range(start: ".data ++ start.data ++ ", stop: ".data ++ stop.data ++ ")".data

/-- Third pipeline line: the measurement/topic tag filter. -/
def queryLine3 (measurement topic : String) : List Char :=
  "  |> filter(fn: (r) => r._measurement == \"".data ++ measurement.data
    ++ "\" and r.topic == \"".data ++ topic.data ++ "\")".data

/-- Fourth pipeline line: the field filter (one OR-term per field). -/
def queryLine4 (fields : List String) : List Char :=
  "  |> filter(fn: (r) => ".data
    ++ (orJoin (fields.map (fun field => "r._field == \"" ++ field ++ "\""))).data
    ++ ")".data

/-- Fifth pipeline line: the aggregation clause. -/
def queryLine5 (aggregate_every : String) : List Char :=
  "  |> aggregateWindow(every: ".data ++ aggregate_every.data
    ++ ", fn: mean, createEmpty: false)".data

/-- Sixth pipeline line: the pivot clause. -/
def queryLine6 : List Char :=
  "  |> pivot(rowKey: [\"_time\"], columnKey: [\"_field\"], valueColumn: \"_value\")".data

/-- Concrete two-row fragment used in the concatenation scenario. -/
def concatFragmentX : DF :=
  ⟨none, none, ["_time", "CO"],
    [[Val.str "T1", Val.int 1], [Val.str "T2", Val.int 2]]⟩

/-- Concrete three-row fragment used in the concatenation scenario. -/
def concatFragmentY : DF :=
  ⟨none, none, ["_time", "CO"],
    [[Val.str "T3", Val.int 3], [Val.str "T4", Val.int 4], [Val.str "T5", Val.int 5]]⟩

/-- Concrete raw frame (metadata columns present, scrambled order) used to
exercise the metadata-dropping step. -/
def metadataScrambledFrame : DF :=
  ⟨none, none, ["host", "CO", "_start", "_time", "topic", "x"],
    [[Val.str "h", Val.int 1, Val.str "s", Val.str "T1", Val.str "tp", Val.int 9]]⟩

/-- Concrete normalized side A of the join scenario: indexed `[T1, T2]`. -/
def joinScenarioA : DF :=
  ⟨some "_time", some [Val.str "T1", Val.str "T2"], ["CO_A"],
    [[Val.int 1], [Val.int 2]]⟩

/-- Concrete normalized side B of the join scenario: indexed `[T2, T3]`. -/
def joinScenarioB : DF :=
  ⟨some "_time", some [Val.str "T2", Val.str "T3"], ["CO_B"],
    [[Val.int 5], [Val.int 6]]⟩

/-- Executor environment whose every query yields an empty list of tables. -/
def envBothEmpty : Env := ⟨fun _ _ _ _ => .inr []⟩

/-- Raw query-result frame carrying the full metadata set, a timestamp column
and a `CO` column with two rows. -/
def rawCoFrame : DF :=
  ⟨none, none,
    ["result", "table", "_start", "_stop", "_measurement", "topic", "host", "_time", "CO"],
    [[Val.str "r", Val.int 0, Val.str "s", Val.str "e", Val.str "m",
        Val.str "tp", Val.str "h", Val.str "T1", Val.int 1],
      [Val.str "r", Val.int 0, Val.str "s", Val.str "e", Val.str "m",
        Val.str "tp", Val.str "h", Val.str "T2", Val.int 2]]⟩

/-- Executor environment answering every query with the single `rawCoFrame`
table. -/
def envCoTable : Env := ⟨fun _ _ _ _ => .inl rawCoFrame⟩

/-- Frame used to falsify the claim that renaming `_time` away always leaves
the default index: its `x` column is renamed **to** `_time`. -/
def timeSwapFrame : DF :=
  ⟨none, none, ["_time", "x"], [[Val.str "T1", Val.int 7]]⟩

/-- Rename map sending `_time` to `ts` while also sending `x` to `_time`. -/
def timeSwapRename : List (String × String) := [("_time", "ts"), ("x", "_time")]

/-- Frame with a `_time` column used in the amended-claim witness. -/
def timeRenameFrame : DF :=
  ⟨none, none, ["_time", "CO"], [[Val.str "T1", Val.int 1]]⟩

/-- C8: for fixed `start`, `stop`, `bucket`, `measurement`, `topic`, `fields`
and aggregation window, the query string returned by the generic builder
`build_hourly_source_query` is identical for all values of `rename_map`
(empty or not): the builder's output does not depend on the rename map, the
rename being deferred to the normalizer. -/
theorem c8_build_query_independent_of_rename_map
    (start stop bucket measurement topic aggregate_every : String)
    (fields : List String) (rm₁ rm₂ : List (String × String)) :
    build_hourly_source_query start stop bucket measurement topic fields rm₁ aggregate_every
      = build_hourly_source_query start stop bucket measurement topic fields rm₂ aggregate_every :=
  rfl

/-- C2: calling the query builder with an empty fields list fails with the
invalid-spec error (the `RuntimeError` of `_as_flux_or_filter`, called
`InvalidSpecError` by the spec), whatever the other parameters are, and the
single-source fetch propagates exactly that error to its caller without
catching or transforming it. -/
theorem c2_empty_fields_error_propagates (env : Env)
    (url token organization start stop bucket measurement topic aggregate_every : String)
    (rename_map : List (String × String)) (output_csv_path : Option String) :
    build_hourly_source_query start stop bucket measurement topic [] rename_map aggregate_every
        = .error "At least one field is required for query generation."
      ∧ fetch_hourly_source env url token organization start stop bucket measurement topic
          [] rename_map aggregate_every output_csv_path
        = .error "At least one field is required for query generation." :=
  ⟨rfl, rfl⟩

theorem contains_iff_mem (l : List String) (a : String) : l.contains a = true ↔ a ∈ l := by
  simp [List.contains, List.elem_iff]

theorem projectRow_self (cols : List String) :
    ∀ (r : List Val), cols.Nodup → r.length = cols.length →
      cols.map (projectCell cols r) = r := by
  induction cols with
  | nil =>
    intro r _ hr
    simp only [List.length_nil] at hr
    rw [List.length_eq_zero] at hr
    simp [hr]
  | cons c cs ih =>
    intro r hnd hr
    cases r with
    | nil => simp at hr
    | cons v vs =>
      simp only [List.length_cons, Nat.succ.injEq] at hr
      rw [List.nodup_cons] at hnd
      simp only [List.map_cons]
      have hc : projectCell (c :: cs) (v :: vs) c = v := by
        simp [projectCell]
      rw [hc]
      have htail : cs.map (projectCell (c :: cs) (v :: vs)) = cs.map (projectCell cs vs) := by
        apply List.map_congr_left
        intro a ha
        have hne : (a == c) = false :=
          beq_eq_false_iff_ne.mpr (fun h => hnd.1 (by rw [← h]; exact ha))
        simp [projectCell, List.lookup_cons, hne]
      rw [htail]
      exact congrArg (v :: ·) (ih vs hnd.2 hr)

theorem concat_foldl_const (c0 : List String) :
    ∀ (dfs : List DF), (∀ d ∈ dfs, d.cols = c0) →
      List.foldl (fun acc d => acc ++ d.cols.filter (fun c => (!(acc.contains c)))) c0 dfs
        = c0 := by
  intro dfs
  induction dfs with
  | nil => intro _; rfl
  | cons d ds ih =>
    intro h
    have hd : d.cols = c0 := h d (by simp)
    have hstep : c0 ++ d.cols.filter (fun c => (!(c0.contains c))) = c0 := by
      rw [hd]
      have hnil : c0.filter (fun c => (!(c0.contains c))) = [] := by
        rw [List.filter_eq_nil_iff]
        intro a ha
        simpa using ha
      rw [hnil, List.append_nil]
    simp only [List.foldl_cons, hstep]
    exact ih (fun d' hd' => h d' (List.mem_cons_of_mem _ hd'))

theorem concatColumns_const (c0 : List String) (dfs : List DF)
    (h : ∀ d ∈ dfs, d.cols = c0) (hne : dfs ≠ []) : concatColumns dfs = c0 := by
  cases dfs with
  | nil => exact absurd rfl hne
  | cons d ds =>
    have hd : d.cols = c0 := h d (by simp)
    unfold concatColumns
    simp only [List.foldl_cons, List.nil_append]
    have hfirst : d.cols.filter (fun c => (!(([] : List String).contains c))) = c0 := by
      rw [hd]
      apply List.filter_eq_self.mpr
      intro a _
      rfl
    rw [hfirst]
    exact concat_foldl_const c0 ds (fun d' hd' => h d' (List.mem_cons_of_mem _ hd'))

/-- C3: normalization of a sequence RawResult: an empty sequence yields the
empty frame (no error — the function is total), and a non-empty sequence of
schema-consistent fragments is concatenated in sequence order, preserving
each fragment's row order, into one flat table. -/
theorem c3_normalize_concatenates_in_order :
    normalize_df (.inr []) = DF.emptyDF
  ∧ ∀ (dfs : List DF) (c0 : List String), dfs ≠ [] →
      (∀ d ∈ dfs, d.cols = c0) → c0.Nodup →
      (∀ d ∈ dfs, ∀ r ∈ d.rows, r.length = c0.length) →
      (normalize_df (.inr dfs)).cols = c0
      ∧ (normalize_df (.inr dfs)).rows = dfs.flatMap (fun d => d.rows) := by
  refine ⟨rfl, ?_⟩
  intro dfs c0 hne hcols hnd hwf
  have hnorm : normalize_df (.inr dfs) = concatIgnoreIndex dfs := by
    cases dfs with
    | nil => exact absurd rfl hne
    | cons d ds => rfl
  rw [hnorm]
  have hcc : concatColumns dfs = c0 := concatColumns_const c0 dfs hcols hne
  refine ⟨by simp [concatIgnoreIndex, hcc], ?_⟩
  show dfs.flatMap (fun d => d.rows.map (fun r => (concatColumns dfs).map (projectCell d.cols r)))
      = dfs.flatMap (fun d => d.rows)
  unfold List.flatMap
  apply congrArg List.flatten
  apply List.map_congr_left
  intro d hd
  have : ∀ r ∈ d.rows, (concatColumns dfs).map (projectCell d.cols r) = id r := by
    intro r hr
    rw [hcc, ← hcols d hd]
    exact projectRow_self d.cols r (by rw [hcols d hd]; exact hnd)
      (by rw [hcols d hd]; exact hwf d hd r hr)
  rw [List.map_congr_left this, List.map_id]

/-- C3 witness: the concrete scenario `[tableX (2 rows), tableY (3 rows)]`
normalizes to a flat 5-row table with X's rows before Y's rows. -/
theorem c3_witness :
    (normalize_df (.inr [concatFragmentX, concatFragmentY])).cols = ["_time", "CO"]
  ∧ (normalize_df (.inr [concatFragmentX, concatFragmentY])).rows
      = concatFragmentX.rows ++ concatFragmentY.rows
  ∧ (normalize_df (.inr [concatFragmentX, concatFragmentY])).rows.length = 5 := by
  have h := c3_normalize_concatenates_in_order.2 [concatFragmentX, concatFragmentY]
    ["_time", "CO"] (by decide) (by decide) (by decide) (by decide)
  refine ⟨h.1, ?_, ?_⟩
  · rw [h.2]; rfl
  · rw [h.2]; rfl

/-- C4: on a non-empty flattened result, normalization (with no rename map)
removes exactly the metadata columns that are present — no others — keeping
the remaining columns in order; a present `_time` column is not dropped but
moved to the index, an absent metadata column is a no-op, and no rows are
lost (removal never errors). -/
theorem c4_drops_exactly_metadata_columns (df : DF)
    (h1 : df.rows ≠ []) (h2 : df.cols ≠ []) :
    ((clean_query_df_with_rename (.inl df) []).cols
        = df.cols.filter (fun c => (!(metadata_columns.contains c)) && (c != "_time")))
  ∧ (df.cols.contains "_time" = true →
      (clean_query_df_with_rename (.inl df) []).idxName = some "_time")
  ∧ (df.cols.contains "_time" = false →
      (clean_query_df_with_rename (.inl df) []).idxName = df.idxName
        ∧ (clean_query_df_with_rename (.inl df) []).cols
            = df.cols.filter (fun c => (!(metadata_columns.contains c))))
  ∧ (clean_query_df_with_rename (.inl df) []).rows.length = df.rows.length := by
  have hE : df.isEmptyTab = false := by
    unfold DF.isEmptyTab
    simp [h1, h2]
  have hclean : clean_query_df_with_rename (.inl df) []
      = setTimeIndex (dropColumns df metadata_columns) := by
    unfold clean_query_df_with_rename
    simp [normalize_df, hE]
  have hcontains : (dropColumns df metadata_columns).cols.contains "_time"
      = df.cols.contains "_time" := by
    simp only [dropColumns]
    cases hmem : df.cols.contains "_time" with
    | true =>
      apply (contains_iff_mem _ _).mpr
      rw [List.mem_filter]
      exact ⟨(contains_iff_mem _ _).mp hmem, by decide⟩
    | false =>
      apply Bool.eq_false_iff.mpr
      intro hc
      have := (contains_iff_mem _ _).mp hc
      rw [List.mem_filter] at this
      exact Bool.eq_false_iff.mp hmem ((contains_iff_mem _ _).mpr this.1)
  rw [hclean]
  cases hmem : df.cols.contains "_time" with
  | true =>
    have hset : setTimeIndex (dropColumns df metadata_columns)
        = { idxName := some "_time",
            idx := some ((dropColumns df metadata_columns).rows.map
              (fun r => projectCell (dropColumns df metadata_columns).cols r "_time")),
            cols := (dropColumns df metadata_columns).cols.filter (fun c => c != "_time"),
            rows := (dropColumns df metadata_columns).rows.map (fun r =>
              (((dropColumns df metadata_columns).cols.zip r).filter
                (fun p => p.1 != "_time")).map Prod.snd) } := by
      unfold setTimeIndex
      rw [hcontains, hmem]
      simp
    rw [hset]
    refine ⟨?_, fun _ => rfl, ?_, ?_⟩
    · show (df.cols.filter (fun c => (!(metadata_columns.contains c)))).filter
          (fun c => c != "_time")
        = df.cols.filter (fun c => (!(metadata_columns.contains c)) && (c != "_time"))
      rw [List.filter_filter]
      exact List.filter_congr (fun a _ => Bool.and_comm _ _)
    · intro hco
      exact absurd hco (by decide)
    · simp [dropColumns]
  | false =>
    have hset : setTimeIndex (dropColumns df metadata_columns)
        = dropColumns df metadata_columns := by
      unfold setTimeIndex
      rw [hcontains, hmem]
      simp
    rw [hset]
    have hcols2 : df.cols.filter (fun c => (!(metadata_columns.contains c)) && (c != "_time"))
        = df.cols.filter (fun c => (!(metadata_columns.contains c))) := by
      apply List.filter_congr
      intro a ha
      have hane : a ≠ "_time" := by
        intro h
        rw [h] at ha
        exact Bool.eq_false_iff.mp hmem ((contains_iff_mem _ _).mpr ha)
      simp [hane]
    refine ⟨?_, ?_, fun _ => ⟨rfl, rfl⟩, ?_⟩
    · rw [hcols2]; rfl
    · intro hco
      exact absurd hco (by decide)
    · simp [dropColumns]

/-- C4 witness: a concrete one-row frame with scrambled column order keeps
exactly its non-metadata columns (`CO`, `x`), moves `_time` to the index and
keeps its row. -/
theorem c4_witness :
    (clean_query_df_with_rename (.inl metadataScrambledFrame) []).cols = ["CO", "x"]
  ∧ (clean_query_df_with_rename (.inl metadataScrambledFrame) []).idxName = some "_time"
  ∧ (clean_query_df_with_rename (.inl metadataScrambledFrame) []).rows.length = 1 := by
  have h := c4_drops_exactly_metadata_columns metadataScrambledFrame (by decide) (by decide)
  refine ⟨?_, h.2.1 (by decide), ?_⟩
  · rw [h.1]; rfl
  · rw [h.2.2.2]; rfl

/-- C10 counterexample: the claim fails when another column is renamed **to**
`_time`: with columns `[_time, x]` and rename map `{_time: ts, x: _time}`,
normalization does set a timestamp index (built from the old `x` column)
instead of keeping the default row numbering. -/
theorem c10_counterexample :
    (clean_query_df_with_rename (.inl timeSwapFrame) timeSwapRename).idxName = some "_time"
  ∧ (clean_query_df_with_rename (.inl timeSwapFrame) timeSwapRename).idx = some [Val.int 7]
  ∧ (clean_query_df_with_rename (.inl timeSwapFrame) timeSwapRename).cols = ["ts"] := by
  decide

/-- C10 (amended): for a non-empty flattened result containing `_time`, if the
rename map sends `_time` to a different name and no remaining column is
renamed to `_time`, then the rename runs before the index-setting check, so no
timestamp index is set (index name and labels stay as they were — the default
row numbering) and the renamed timestamp remains an ordinary column. -/
theorem c10_rename_time_keeps_default_index (df : DF) (m : List (String × String)) (t : String)
    (h1 : df.rows ≠ []) (h2 : df.cols ≠ [])
    (htime : "_time" ∈ df.cols)
    (hlk : m.lookup "_time" = some t) (hts : t ≠ "_time")
    (hno : ∀ c ∈ df.cols, (!(metadata_columns.contains c)) = true →
        ((m.lookup c).getD c) ≠ "_time") :
    (clean_query_df_with_rename (.inl df) m).idxName = df.idxName
  ∧ (clean_query_df_with_rename (.inl df) m).idx = df.idx
  ∧ t ∈ (clean_query_df_with_rename (.inl df) m).cols := by
  have hE : df.isEmptyTab = false := by
    unfold DF.isEmptyTab
    simp [h1, h2]
  have hm : m.isEmpty = false := by
    cases m with
    | nil => simp at hlk
    | cons p ps => rfl
  have hclean : clean_query_df_with_rename (.inl df) m
      = setTimeIndex (renameColumns (dropColumns df metadata_columns) m) := by
    unfold clean_query_df_with_rename
    simp [normalize_df, hE, hm]
  have hnc : (renameColumns (dropColumns df metadata_columns) m).cols.contains "_time"
      = false := by
    apply Bool.eq_false_iff.mpr
    intro hc
    have := (contains_iff_mem _ _).mp hc
    simp only [renameColumns, dropColumns, List.mem_map, List.mem_filter] at this
    obtain ⟨c, ⟨hcm, hcp⟩, hceq⟩ := this
    exact hno c hcm hcp hceq
  have hset : setTimeIndex (renameColumns (dropColumns df metadata_columns) m)
      = renameColumns (dropColumns df metadata_columns) m := by
    unfold setTimeIndex
    rw [hnc]
    simp
  rw [hclean, hset]
  refine ⟨rfl, rfl, ?_⟩
  show t ∈ (dropColumns df metadata_columns).cols.map (fun c => ((m.lookup c).getD c))
  apply List.mem_map.mpr
  refine ⟨"_time", ?_, by rw [hlk]; rfl⟩
  simp only [dropColumns, List.mem_filter]
  exact ⟨htime, by decide⟩

/-- C10 witness for the amended claim: renaming `_time` to `ts` (and nothing
else to `_time`) leaves the default index in place and keeps `ts` as an
ordinary column. -/
theorem c10_witness :
    (clean_query_df_with_rename (.inl timeRenameFrame) [("_time", "ts")]).idxName = none
  ∧ (clean_query_df_with_rename (.inl timeRenameFrame) [("_time", "ts")]).idx = none
  ∧ "ts" ∈ (clean_query_df_with_rename (.inl timeRenameFrame) [("_time", "ts")]).cols := by
  have h := c10_rename_time_keeps_default_index timeRenameFrame [("_time", "ts")] "ts"
    (by decide) (by decide) (by decide) (by decide) (by decide) (by decide)
  exact ⟨h.1, h.2.1, h.2.2⟩

theorem containsVal_iff_mem (l : List Val) (a : Val) : l.contains a = true ↔ a ∈ l := by
  simp [List.contains, List.elem_iff]

theorem filterMap_inner_fst (bz : List (Val × List Val)) :
    ∀ (az : List (Val × List Val)),
      ((az.filterMap (fun p => (bz.find? (fun q => decide (q.1 = p.1))).map
          (fun q => (p.1, p.2 ++ q.2)))).map Prod.fst)
        = (az.map Prod.fst).filter (fun l => bz.any (fun q => decide (q.1 = l))) := by
  intro az
  induction az with
  | nil => rfl
  | cons p az ih =>
    cases hfind : bz.find? (fun q => decide (q.1 = p.1)) with
    | none =>
      have hany : bz.any (fun q => decide (q.1 = p.1)) = false := by
        rw [List.any_eq_false]
        intro x hx
        have := List.find?_eq_none.mp hfind x hx
        simpa using this
      simp [List.filterMap_cons, hfind, hany, ih]
    | some q =>
      have hany : bz.any (fun q' => decide (q'.1 = p.1)) = true := by
        rw [List.any_eq_true]
        have hq := List.find?_some hfind
        exact ⟨q, List.mem_of_find?_eq_some hfind, hq⟩
      simp [List.filterMap_cons, hfind, hany, ih]

theorem dfJoin_inner_spec (a b : DF) (ha : a.labels.length = a.rows.length)
    (hb : b.labels.length = b.rows.length) :
    (dfJoin a b "inner").idx = some (a.labels.filter (fun l => b.labels.contains l))
  ∧ (dfJoin a b "inner").cols = a.cols ++ b.cols := by
  unfold dfJoin
  rw [if_pos rfl]
  refine ⟨?_, rfl⟩
  apply congrArg some
  rw [filterMap_inner_fst]
  rw [List.map_fst_zip _ _ (le_of_eq ha)]
  apply List.filter_congr
  intro l hl
  cases hc : b.labels.contains l with
  | true =>
    rw [List.any_eq_true]
    have hlmem : l ∈ b.labels := (containsVal_iff_mem _ _).mp hc
    have : l ∈ (b.labels.zip b.rows).map Prod.fst := by
      rw [List.map_fst_zip _ _ (le_of_eq hb)]
      exact hlmem
    obtain ⟨x, hx, hx1⟩ := List.mem_map.mp this
    exact ⟨x, hx, by simp [hx1]⟩
  | false =>
    rw [List.any_eq_false]
    intro x hx
    simp only [decide_eq_true_eq]
    intro hx1
    have : l ∈ (b.labels.zip b.rows).map Prod.fst := List.mem_map.mpr ⟨x, hx, hx1⟩
    rw [List.map_fst_zip _ _ (le_of_eq hb)] at this
    exact Bool.eq_false_iff.mp hc ((containsVal_iff_mem _ _).mpr this)

theorem orDefault_isEmpty_false (l d : List String) (hd : d.isEmpty = false) :
    (orDefault l d).isEmpty = false := by
  unfold orDefault
  cases hl : l.isEmpty with
  | true => simpa using hd
  | false => simpa using hl

theorem orDefault_idem (l d : List String) (hd : d.isEmpty = false) :
    orDefault (orDefault l d) d = orDefault l d := by
  unfold orDefault
  cases hl : l.isEmpty with
  | true => simp [hd]
  | false => simp [hl]

theorem build_query_ok (start stop bucket measurement topic aggregate_every : String)
    (fields : List String) (rm : List (String × String)) (h : fields.isEmpty = false) :
    ∃ q, build_hourly_source_query start stop bucket measurement topic fields rm
        aggregate_every = .ok q := by
  unfold build_hourly_source_query as_flux_or_filter
  rw [if_neg (by simp [h])]
  exact ⟨_, rfl⟩

theorem fetch_hourly_ual_lubw_shape (env : Env)
    (url token organization start stop us ls ub lb um lm utt ltt : String)
    (uf lf : List String) (ur lr : List (String × String)) (agg how path : String) :
    ∃ qU qL,
      build_hourly_source_query start stop ub um (formatSensor utt us)
          (orDefault uf default_ual_fields) ur agg = .ok qU
    ∧ build_hourly_source_query start stop lb lm (formatSensor ltt ls)
          (orDefault lf default_lubw_fields) lr agg = .ok qL
    ∧ fetch_hourly_ual_lubw env url token organization start stop us ls ub lb um lm
          utt ltt uf lf ur lr agg how path
        = .ok (joinNormalized
            (clean_query_df_with_rename (env.query_data_frame url token organization qU) ur)
            (clean_query_df_with_rename (env.query_data_frame url token organization qL) lr)
            how,
          [(path, joinNormalized
            (clean_query_df_with_rename (env.query_data_frame url token organization qU) ur)
            (clean_query_df_with_rename (env.query_data_frame url token organization qL) lr)
            how)]) := by
  obtain ⟨qU, hU⟩ := build_query_ok start stop ub um (formatSensor utt us) agg
    (orDefault uf default_ual_fields) ur (orDefault_isEmpty_false uf _ (by decide))
  obtain ⟨qL, hL⟩ := build_query_ok start stop lb lm (formatSensor ltt ls) agg
    (orDefault lf default_lubw_fields) lr (orDefault_isEmpty_false lf _ (by decide))
  refine ⟨qU, qL, hU, hL, ?_⟩
  unfold fetch_hourly_ual_lubw
  dsimp only
  rw [hU, hL]
  rfl

/-- C5: the join step of the dual-source fetch: when both normalized tables
are empty the result is the empty table with index name `_time`; when exactly
one is empty the result is the other side unchanged; otherwise the tables are
joined on the timestamp index, the `inner` mode keeping exactly `a`'s labels
that also occur in `b` (in `a`'s order) and concatenating the column lists;
and the fetch operation itself returns exactly such a join of its two
normalized sides, written to the sink path. -/
theorem c5_join_fetch_behaviour :
    (∀ (a b : DF) (how : String), a.isEmptyTab = true → b.isEmptyTab = true →
        joinNormalized a b how = { DF.emptyDF with idxName := some "_time" })
  ∧ (∀ (a b : DF) (how : String), a.isEmptyTab = true → b.isEmptyTab = false →
        joinNormalized a b how = b)
  ∧ (∀ (a b : DF) (how : String), a.isEmptyTab = false → b.isEmptyTab = true →
        joinNormalized a b how = a)
  ∧ (∀ (a b : DF), a.isEmptyTab = false → b.isEmptyTab = false →
        a.labels.length = a.rows.length → b.labels.length = b.rows.length →
        joinNormalized a b "inner" = dfJoin a b "inner"
        ∧ (dfJoin a b "inner").idx
            = some (a.labels.filter (fun l => b.labels.contains l))
        ∧ (dfJoin a b "inner").cols = a.cols ++ b.cols)
  ∧ (∀ (env : Env) (url token organization start stop us ls ub lb um lm utt ltt : String)
        (uf lf : List String) (ur lr : List (String × String)) (agg how path : String),
        ∃ a b, fetch_hourly_ual_lubw env url token organization start stop us ls ub lb
            um lm utt ltt uf lf ur lr agg how path
          = .ok (joinNormalized a b how, [(path, joinNormalized a b how)])) := by
  refine ⟨?_, ?_, ?_, ?_, ?_⟩
  · intro a b how h1 h2
    unfold joinNormalized
    simp [h1, h2]
  · intro a b how h1 h2
    unfold joinNormalized
    simp [h1, h2]
  · intro a b how h1 h2
    unfold joinNormalized
    simp [h1, h2]
  · intro a b h1 h2 ha hb
    refine ⟨?_, dfJoin_inner_spec a b ha hb⟩
    unfold joinNormalized
    simp [h1, h2]
  · intro env url token organization start stop us ls ub lb um lm utt ltt uf lf ur lr agg how path
    obtain ⟨qU, qL, _, _, hrun⟩ := fetch_hourly_ual_lubw_shape env url token organization
      start stop us ls ub lb um lm utt ltt uf lf ur lr agg how path
    exact ⟨_, _, hrun⟩

/-- C5 witness: the concrete scenario of the spec — A indexed `[T1, T2]` with
CO values `1, 2` and B indexed `[T2, T3]` with CO values `5, 6` inner-join to
the single timestamp `T2` carrying both (renamed) CO columns; and a join with
an empty side returns the other side unchanged. -/
theorem c5_witness :
    joinNormalized joinScenarioA joinScenarioB "inner" = dfJoin joinScenarioA joinScenarioB "inner"
  ∧ (dfJoin joinScenarioA joinScenarioB "inner").idx = some [Val.str "T2"]
  ∧ (dfJoin joinScenarioA joinScenarioB "inner").cols = ["CO_A", "CO_B"]
  ∧ (dfJoin joinScenarioA joinScenarioB "inner").rows = [[Val.int 2, Val.int 5]]
  ∧ joinNormalized joinScenarioA DF.emptyDF "inner" = joinScenarioA := by
  have h := c5_join_fetch_behaviour
  have hmain := h.2.2.2.1 joinScenarioA joinScenarioB (by decide) (by decide)
    (by decide) (by decide)
  refine ⟨hmain.1, ?_, hmain.2.2, by decide,
    h.2.2.1 joinScenarioA DF.emptyDF "inner" (by decide) (by decide)⟩
  rw [hmain.2.1]
  decide

theorem fetch_hourly_ual_lubw_run (env : Env)
    (url token organization start stop us ls ub lb um lm utt ltt : String)
    (uf lf : List String) (ur lr : List (String × String)) (agg how path : String)
    (qU qL : String)
    (hU : build_hourly_source_query start stop ub um (formatSensor utt us)
        (orDefault uf default_ual_fields) ur agg = .ok qU)
    (hL : build_hourly_source_query start stop lb lm (formatSensor ltt ls)
        (orDefault lf default_lubw_fields) lr agg = .ok qL) :
    fetch_hourly_ual_lubw env url token organization start stop us ls ub lb um lm
        utt ltt uf lf ur lr agg how path
      = .ok (joinNormalized
          (clean_query_df_with_rename (env.query_data_frame url token organization qU) ur)
          (clean_query_df_with_rename (env.query_data_frame url token organization qL) lr)
          how,
        [(path, joinNormalized
          (clean_query_df_with_rename (env.query_data_frame url token organization qU) ur)
          (clean_query_df_with_rename (env.query_data_frame url token organization qL) lr)
          how)]) := by
  unfold fetch_hourly_ual_lubw
  dsimp only
  rw [hU, hL]
  rfl

theorem fetch_hourly_ual_lubw_debug_run (env : Env)
    (url token organization start stop us ls ub lb um lm utt ltt : String)
    (uf lf : List String) (ur lr : List (String × String))
    (agg how ucsv lcsv jcsv : String) (qU qL : String)
    (hU : build_hourly_source_query start stop ub um (formatSensor utt us)
        (orDefault uf default_ual_fields) ur agg = .ok qU)
    (hL : build_hourly_source_query start stop lb lm (formatSensor ltt ls)
        (orDefault lf default_lubw_fields) lr agg = .ok qL) :
    fetch_hourly_ual_lubw_debug env url token organization start stop us ls ub lb um lm
        utt ltt uf lf ur lr agg how ucsv lcsv jcsv
      = .ok (joinNormalized
          (clean_query_df_with_rename (env.query_data_frame url token organization qU) ur)
          (clean_query_df_with_rename (env.query_data_frame url token organization qL) lr)
          how,
        [(ucsv, clean_query_df_with_rename (env.query_data_frame url token organization qU) ur),
          (lcsv, clean_query_df_with_rename (env.query_data_frame url token organization qL) lr),
          (jcsv, joinNormalized
            (clean_query_df_with_rename (env.query_data_frame url token organization qU) ur)
            (clean_query_df_with_rename (env.query_data_frame url token organization qL) lr)
            how)]) := by
  have hU' : build_hourly_source_query start stop ub um (formatSensor utt us)
      (orDefault (orDefault uf default_ual_fields) default_ual_fields) ur agg = .ok qU := by
    rw [orDefault_idem uf default_ual_fields (by decide)]
    exact hU
  have hL' : build_hourly_source_query start stop lb lm (formatSensor ltt ls)
      (orDefault (orDefault lf default_lubw_fields) default_lubw_fields) lr agg = .ok qL := by
    rw [orDefault_idem lf default_lubw_fields (by decide)]
    exact hL
  have hfetch := fetch_hourly_ual_lubw_run env url token organization start stop us ls
    ub lb um lm utt ltt (orDefault uf default_ual_fields) (orDefault lf default_lubw_fields)
    ur lr agg how jcsv qU qL hU' hL'
  unfold fetch_hourly_ual_lubw_debug
  dsimp only
  rw [hU, hL, hfetch]
  rfl

/-- C9: for every parameter assignment, the dual-source debug fetch returns
exactly the joined table that the dual-source join fetch produces for the same
parameters — it invokes the join fetch's logic — after first writing each
side's pre-join normalized table to its own sink path (the two extra leading
writes, whose tables are exactly the ones the returned join is built from). -/
theorem c9_debug_fetch_delegates (env : Env)
    (url token organization start stop us ls ub lb um lm utt ltt : String)
    (uf lf : List String) (ur lr : List (String × String))
    (agg how ucsv lcsv jcsv : String) :
    (fetch_hourly_ual_lubw_debug env url token organization start stop us ls ub lb um lm
        utt ltt uf lf ur lr agg how ucsv lcsv jcsv).map Prod.fst
      = (fetch_hourly_ual_lubw env url token organization start stop us ls ub lb um lm
        utt ltt uf lf ur lr agg how jcsv).map Prod.fst
  ∧ ∀ d ws, fetch_hourly_ual_lubw_debug env url token organization start stop us ls ub lb
        um lm utt ltt uf lf ur lr agg how ucsv lcsv jcsv = .ok (d, ws) →
      ∃ a b, fetch_hourly_ual_lubw env url token organization start stop us ls ub lb um lm
            utt ltt uf lf ur lr agg how jcsv = .ok (d, [(jcsv, d)])
        ∧ ws = [(ucsv, a), (lcsv, b), (jcsv, d)]
        ∧ d = joinNormalized a b how := by
  obtain ⟨qU, hU⟩ := build_query_ok start stop ub um (formatSensor utt us) agg
    (orDefault uf default_ual_fields) ur (orDefault_isEmpty_false uf _ (by decide))
  obtain ⟨qL, hL⟩ := build_query_ok start stop lb lm (formatSensor ltt ls) agg
    (orDefault lf default_lubw_fields) lr (orDefault_isEmpty_false lf _ (by decide))
  have hdebug := fetch_hourly_ual_lubw_debug_run env url token organization start stop us ls
    ub lb um lm utt ltt uf lf ur lr agg how ucsv lcsv jcsv qU qL hU hL
  have hfetch := fetch_hourly_ual_lubw_run env url token organization start stop us ls
    ub lb um lm utt ltt uf lf ur lr agg how jcsv qU qL hU hL
  constructor
  · rw [hdebug, hfetch]
    rfl
  · intro d ws heq
    rw [hdebug] at heq
    simp only [Except.ok.injEq, Prod.mk.injEq] at heq
    obtain ⟨hd, hws⟩ := heq
    refine ⟨clean_query_df_with_rename (env.query_data_frame url token organization qU) ur,
      clean_query_df_with_rename (env.query_data_frame url token organization qL) lr,
      ?_, ?_, ?_⟩
    · rw [← hd]
      exact hfetch
    · rw [← hws, ← hd]
    · rw [← hd]

/-- C9 witness: with an executor answering every query with an empty list of
tables, the debug fetch returns the empty `_time`-indexed join and writes the
two empty pre-join sides first. -/
theorem c9_witness :
    ∃ a b, fetch_hourly_ual_lubw envBothEmpty "u" "t" "o" "-7d" "now()" "ual-4" "DEBW152"
          "bu" "bl" "m1" "m2" "sensors/measurement/\x7bsensor\x7d"
          "sensors/lubw-hour/\x7bsensor\x7d" [] [] [] [] "1h" "inner" "j.csv"
        = .ok ({ DF.emptyDF with idxName := some "_time" },
            [("j.csv", { DF.emptyDF with idxName := some "_time" })])
      ∧ [("u.csv", DF.emptyDF), ("l.csv", DF.emptyDF),
          ("j.csv", { DF.emptyDF with idxName := some "_time" })]
          = [("u.csv", a), ("l.csv", b),
              ("j.csv", { DF.emptyDF with idxName := some "_time" })]
      ∧ { DF.emptyDF with idxName := some "_time" } = joinNormalized a b "inner" :=
  (c9_debug_fetch_delegates envBothEmpty "u" "t" "o" "-7d" "now()" "ual-4" "DEBW152"
    "bu" "bl" "m1" "m2" "sensors/measurement/\x7bsensor\x7d"
    "sensors/lubw-hour/\x7bsensor\x7d" [] [] [] [] "1h" "inner" "u.csv" "l.csv" "j.csv").2
    { DF.emptyDF with idxName := some "_time" }
    [("u.csv", DF.emptyDF), ("l.csv", DF.emptyDF),
      ("j.csv", { DF.emptyDF with idxName := some "_time" })]
    rfl

/-- C7 counterexample: the output columns of the deprecated CO-report fetch
depend on which columns the executor actually returns — with an executor
yielding no data the result has no columns at all, while with an executor
returning a `CO` table the result has exactly `[CO_ual, CO_lubw]` (two data
rows, and no null-filled columns for the absent hardcoded fields such as
`RAW_ADC_CO_A`).  Hence the output is not reindexed to any fixed
expected-column list. -/
theorem c7_counterexample :
    (fetch_co_hourly_ual_lubw envBothEmpty "u" "t" "o" "-7d" "now()" "ual-4" "DEBW152"
        "out.csv").map (fun p => p.1.cols) = .ok []
  ∧ (fetch_co_hourly_ual_lubw envCoTable "u" "t" "o" "-7d" "now()" "ual-4" "DEBW152"
        "out.csv").map (fun p => p.1.cols) = .ok ["CO_ual", "CO_lubw"]
  ∧ ([] : List String) ≠ ["CO_ual", "CO_lubw"]
  ∧ (fetch_co_hourly_ual_lubw envCoTable "u" "t" "o" "-7d" "now()" "ual-4" "DEBW152"
        "out.csv").map (fun p => p.1.rows.length) = .ok 2 :=
  ⟨rfl, rfl, by decide, rfl⟩

/-- C7 (amended): the deprecated CO-report fetch delegates to the generic
dual-source fetch with the same hardcoded default bucket, measurement,
topic-template, field-list and rename-map values (1h window, inner join); its
output columns are whatever that join produces — there is no reindexing to a
fixed expected-column list, and hardcoded fields absent from the fetched data
are absent from the output rather than appearing as null columns. -/
theorem c7_delegates_with_hardcoded_defaults :
    (∀ (env : Env) (url token organization start stop us ls path : String),
      fetch_co_hourly_ual_lubw env url token organization start stop us ls path
        = fetch_hourly_ual_lubw env url token organization start stop us ls
            UAL_MINUTE_MEASUREMENT_BUCKET LUBW_HOUR_BUCKET
            "measurement_data" "lubw_hour_data"
            "sensors/measurement/\x7bsensor\x7d" "sensors/lubw-hour/\x7bsensor\x7d"
            ["CO", "RAW_ADC_CO_A", "RAW_ADC_CO_W", "sht_temp", "sht_humid"] ["CO", "TEMP"]
            [("CO", "CO_ual"), ("sht_temp", "UAL_TEMP")]
            [("CO", "CO_lubw"), ("TEMP", "LUBW_TEMP")]
            "1h" "inner" path)
  ∧ (fetch_co_hourly_ual_lubw envCoTable "u" "t" "o" "-7d" "now()" "ual-4" "DEBW152"
      "out.csv").map (fun p => p.1.cols.contains "RAW_ADC_CO_A") = .ok false
  ∧ (fetch_co_hourly_ual_lubw envCoTable "u" "t" "o" "-7d" "now()" "ual-4" "DEBW152"
      "out.csv").map (fun p => p.1.cols.contains "UAL_TEMP") = .ok false :=
  ⟨fun _ _ _ _ _ _ _ _ _ => rfl, rfl, rfl⟩

/-- C6: evaluating the deprecated two-source CO join builder at its fixed
default parameters shows that the generated query does contain every
hardcoded field name as a literal substring, but contains neither any rename
target (`CO_ual`, `UAL_TEMP`, `CO_lubw`, `LUBW_TEMP`) nor any `rename`/`keep`
pipeline step: the rename embedding the claim (and the spec) require is
missing — `_as_flux_rename_map` is dead code and `build_hourly_source_query`
ignores its `rename_map` argument. -/
theorem c6_rename_not_embedded :
    ∃ q, build_co_hourly_join_query "-7d" "now()" "ual-4" "DEBW152"
        UAL_MINUTE_MEASUREMENT_BUCKET LUBW_HOUR_BUCKET = .ok q
      ∧ hasSubstr q "CO" = true
      ∧ hasSubstr q "RAW_ADC_CO_A" = true
      ∧ hasSubstr q "RAW_ADC_CO_W" = true
      ∧ hasSubstr q "sht_temp" = true
      ∧ hasSubstr q "sht_humid" = true
      ∧ hasSubstr q "TEMP" = true
      ∧ hasSubstr q "join(tables:" = true
      ∧ hasSubstr q "CO_ual" = false
      ∧ hasSubstr q "UAL_TEMP" = false
      ∧ hasSubstr q "CO_lubw" = false
      ∧ hasSubstr q "LUBW_TEMP" = false
      ∧ hasSubstr q "rename(" = false
      ∧ hasSubstr q "keep(" = false := by
  refine ⟨_, rfl, ?_, ?_, ?_, ?_, ?_, ?_, ?_, ?_, ?_, ?_, ?_, ?_, ?_⟩
  all_goals decide

theorem prefix_extend {p l : List Char} (r : List Char) (h : p <+: l) : p <+: l ++ r := by
  obtain ⟨t, rfl⟩ := h
  exact ⟨t ++ r, by rw [List.append_assoc]⟩

theorem prefix_append_cases {p l r : List Char} (h : p <+: l ++ r) :
    p <+: l ∨ l <+: p := by
  obtain ⟨t, ht⟩ := h
  rcases List.append_eq_append_iff.mp ht with ⟨a, ha1, _⟩ | ⟨c', hc1, _⟩
  · exact Or.inl ⟨a, ha1.symm⟩
  · exact Or.inr ⟨c', hc1.symm⟩

theorem not_prefix_append {p l r : List Char} (h1 : ¬ p <+: l) (h2 : ¬ l <+: p) :
    ¬ p <+: l ++ r := fun h => (prefix_append_cases h).elim h1 h2

theorem dropWhile_append_of_fix {p : Char → Bool} {a : List Char} (b : List Char)
    (h1 : a.dropWhile p = a) (h2 : a ≠ []) : (a ++ b).dropWhile p = a ++ b := by
  rw [List.dropWhile_append, h1]
  simp [h2]

theorem pyIsSpace_of_dropWhile_fix {c : Char} {t : List Char}
    (h : (c :: t).dropWhile pyIsSpace = c :: t) : pyIsSpace c = false := by
  cases hc : pyIsSpace c with
  | true =>
    rw [List.dropWhile_cons, hc] at h
    simp only [if_true] at h
    have hle := (List.dropWhile_sublist (l := t) pyIsSpace).length_le
    rw [h] at hle
    simp at hle
  | false => rfl

theorem pythonStrip_string_wrap (core : String)
    (hh : core.data.dropWhile pyIsSpace = core.data)
    (ht : core.data.reverse.dropWhile pyIsSpace = core.data.reverse) :
    pythonStrip ("\n" ++ core ++ "\n") = core := by
  obtain ⟨d⟩ := core
  have hh' : d.dropWhile pyIsSpace = d := hh
  have ht' : d.reverse.dropWhile pyIsSpace = d.reverse := ht
  have hdata : ("\n" ++ String.mk d ++ "\n").data = '\n' :: (d ++ ['\n']) := by
    simp [String.data_append]
  unfold pythonStrip
  rw [hdata]
  apply congrArg String.mk
  have h1 : ('\n' :: (d ++ ['\n'])).dropWhile pyIsSpace
      = (d ++ ['\n']).dropWhile pyIsSpace := by
    rw [List.dropWhile_cons, if_pos (show pyIsSpace '\n' = true from rfl)]
  rw [h1]
  cases d with
  | nil => rfl
  | cons c t =>
    have hc : pyIsSpace c = false := pyIsSpace_of_dropWhile_fix hh'
    have h2 : ((c :: t) ++ ['\n']).dropWhile pyIsSpace = (c :: t) ++ ['\n'] := by
      rw [List.cons_append, List.dropWhile_cons, hc]
      simp
    rw [h2]
    have h3 : ((c :: t) ++ ['\n']).reverse = '\n' :: (c :: t).reverse := by
      rw [List.reverse_append]
      rfl
    rw [h3, List.dropWhile_cons]
    simp only [show pyIsSpace '\n' = true from rfl, if_true]
    rw [ht', List.reverse_reverse]

theorem built_query_head_fix (start stop bucket measurement topic aggregate_every : String)
    (fields : List String) :
    (built_hourly_query start stop bucket measurement topic fields aggregate_every).data.dropWhile
        pyIsSpace
      = (built_hourly_query start stop bucket measurement topic fields aggregate_every).data := by
  unfold built_hourly_query
  simp only [String.data_append, List.append_assoc]
  exact dropWhile_append_of_fix _ (by decide) (by decide)

theorem built_query_last_fix (start stop bucket measurement topic aggregate_every : String)
    (fields : List String) :
    (built_hourly_query start stop bucket measurement topic fields
        aggregate_every).data.reverse.dropWhile pyIsSpace
      = (built_hourly_query start stop bucket measurement topic fields
        aggregate_every).data.reverse := by
  unfold built_hourly_query
  simp only [String.data_append, List.append_assoc, List.reverse_append]
  apply dropWhile_append_of_fix
  · decide
  · decide

theorem build_query_eq (start stop bucket measurement topic aggregate_every : String)
    (fields : List String) (rm : List (String × String)) (hf : fields.isEmpty = false) :
    build_hourly_source_query start stop bucket measurement topic fields rm aggregate_every
      = .ok (built_hourly_query start stop bucket measurement topic fields aggregate_every) := by
  unfold build_hourly_source_query as_flux_or_filter
  rw [if_neg (by simp [hf])]
  show Except.ok (pythonStrip _) = _
  apply congrArg Except.ok
  have hX : ("\nfrom(bucket: \"" ++ bucket
        ++ "\")\n  |> range(start: " ++ start ++ ", stop: " ++ stop
        ++ ")\n  |> filter(fn: (r) => r._measurement == \"" ++ measurement
        ++ "\" and r.topic == \"" ++ topic
        ++ "\")\n  |> filter(fn: (r) => "
        ++ orJoin (fields.map (fun field => "r._field == \"" ++ field ++ "\""))
        ++ ")\n  |> aggregateWindow(every: " ++ aggregate_every
        ++ ", fn: mean, createEmpty: false)"
        ++ "\n  |> pivot(rowKey: [\"_time\"], columnKey: [\"_field\"], valueColumn: \"_value\")"
        ++ "\n")
      = "\n" ++ built_hourly_query start stop bucket measurement topic fields aggregate_every
        ++ "\n" := by
    have hdata : ("\nfrom(bucket: \"" ++ bucket
          ++ "\")\n  |> range(start: " ++ start ++ ", stop: " ++ stop
          ++ ")\n  |> filter(fn: (r) => r._measurement == \"" ++ measurement
          ++ "\" and r.topic == \"" ++ topic
          ++ "\")\n  |> filter(fn: (r) => "
          ++ orJoin (fields.map (fun field => "r._field == \"" ++ field ++ "\""))
          ++ ")\n  |> aggregateWindow(every: " ++ aggregate_every
          ++ ", fn: mean, createEmpty: false)"
          ++ "\n  |> pivot(rowKey: [\"_time\"], columnKey: [\"_field\"], valueColumn: \"_value\")"
          ++ "\n").data
        = ("\n" ++ built_hourly_query start stop bucket measurement topic fields aggregate_every
          ++ "\n").data := by
      unfold built_hourly_query
      have e0 : ("\nfrom(bucket: \"" : String).data
          = '\n' :: ("from(bucket: \"" : String).data := rfl
      simp only [String.data_append, e0, List.append_assoc, List.cons_append]
      rfl
    calc ("\nfrom(bucket: \"" ++ bucket
          ++ "\")\n  |> range(start: " ++ start ++ ", stop: " ++ stop
          ++ ")\n  |> filter(fn: (r) => r._measurement == \"" ++ measurement
          ++ "\" and r.topic == \"" ++ topic
          ++ "\")\n  |> filter(fn: (r) => "
          ++ orJoin (fields.map (fun field => "r._field == \"" ++ field ++ "\""))
          ++ ")\n  |> aggregateWindow(every: " ++ aggregate_every
          ++ ", fn: mean, createEmpty: false)"
          ++ "\n  |> pivot(rowKey: [\"_time\"], columnKey: [\"_field\"], valueColumn: \"_value\")"
          ++ "\n")
        = String.mk ("\nfrom(bucket: \"" ++ bucket
          ++ "\")\n  |> range(start: " ++ start ++ ", stop: " ++ stop
          ++ ")\n  |> filter(fn: (r) => r._measurement == \"" ++ measurement
          ++ "\" and r.topic == \"" ++ topic
          ++ "\")\n  |> filter(fn: (r) => "
          ++ orJoin (fields.map (fun field => "r._field == \"" ++ field ++ "\""))
          ++ ")\n  |> aggregateWindow(every: " ++ aggregate_every
          ++ ", fn: mean, createEmpty: false)"
          ++ "\n  |> pivot(rowKey: [\"_time\"], columnKey: [\"_field\"], valueColumn: \"_value\")"
          ++ "\n").data := rfl
      _ = String.mk ("\n" ++ built_hourly_query start stop bucket measurement topic fields
            aggregate_every ++ "\n").data := congrArg String.mk hdata
      _ = "\n" ++ built_hourly_query start stop bucket measurement topic fields
            aggregate_every ++ "\n" := rfl
  rw [hX]
  exact pythonStrip_string_wrap _
    (built_query_head_fix start stop bucket measurement topic aggregate_every fields)
    (built_query_last_fix start stop bucket measurement topic aggregate_every fields)

theorem splitLines_no_nl : ∀ (l : List Char), '\n' ∉ l → splitLines l = [l] := by
  intro l
  induction l with
  | nil => intro _; rfl
  | cons c rest ih =>
    intro h
    have hc : ¬ c = '\n' := fun hc => h (by rw [hc]; exact List.mem_cons_self _ _)
    rw [splitLines, if_neg hc, ih (fun hm => h (List.mem_cons_of_mem _ hm))]

theorem splitLines_append : ∀ (a b : List Char), '\n' ∉ a →
    splitLines (a ++ '\n' :: b) = a :: splitLines b := by
  intro a
  induction a with
  | nil =>
    intro b _
    rw [List.nil_append, splitLines, if_pos rfl]
  | cons c rest ih =>
    intro b h
    have hc : ¬ c = '\n' := fun hc => h (by rw [hc]; exact List.mem_cons_self _ _)
    rw [List.cons_append, splitLines, if_neg hc,
      ih b (fun hm => h (List.mem_cons_of_mem _ hm))]

theorem orJoin_no_nl : ∀ (fields : List String), (∀ f ∈ fields, noNewline f) →
    '\n' ∉ (orJoin (fields.map (fun field => "r._field == \"" ++ field ++ "\""))).data := by
  intro fields
  induction fields with
  | nil =>
    intro _
    simp [orJoin]
  | cons f fs ih =>
    intro h
    cases fs with
    | nil =>
      show '\n' ∉ ("r._field == \"" ++ f ++ "\"").data
      simp only [String.data_append, List.mem_append]
      rintro ((h1 | h2) | h3)
      · exact absurd h1 (by decide)
      · exact h f (List.mem_cons_self _ _) h2
      · exact absurd h3 (by decide)
    | cons g gs =>
      show '\n' ∉ (("r._field == \"" ++ f ++ "\"") ++ " or "
          ++ orJoin ((g :: gs).map (fun field => "r._field == \"" ++ field ++ "\""))).data
      simp only [String.data_append, List.mem_append]
      rintro ((((h1 | h2) | h3) | h4) | h5)
      · exact absurd h1 (by decide)
      · exact h f (List.mem_cons_self _ _) h2
      · exact absurd h3 (by decide)
      · exact absurd h4 (by decide)
      · exact ih (fun f' hf' => h f' (List.mem_cons_of_mem _ hf')) h5

set_option maxHeartbeats 2000000 in
theorem built_query_data (start stop bucket measurement topic aggregate_every : String)
    (fields : List String) :
    (built_hourly_query start stop bucket measurement topic fields aggregate_every).data
      = queryLine1 bucket ++ '\n' :: (queryLine2 start stop ++ '\n' :: (queryLine3 measurement
          topic ++ '\n' :: (queryLine4 fields ++ '\n' :: (queryLine5 aggregate_every
          ++ '\n' :: queryLine6)))) := by
  unfold built_hourly_query queryLine1 queryLine2 queryLine3 queryLine4 queryLine5 queryLine6
  simp only [String.data_append, List.append_assoc, List.cons_append, List.nil_append]

theorem not_fieldFilter_line1 (bucket : String) :
    isFieldFilterLine (queryLine1 bucket) = false := by
  unfold isFieldFilterLine queryLine1
  apply Bool.eq_false_iff.mpr
  intro hb
  have hp := (List.isPrefixOf_iff_prefix).mp hb
  simp only [List.append_assoc] at hp
  exact not_prefix_append (by decide) (by decide) hp

theorem not_fieldFilter_line2 (start stop : String) :
    isFieldFilterLine (queryLine2 start stop) = false := by
  unfold isFieldFilterLine queryLine2
  apply Bool.eq_false_iff.mpr
  intro hb
  have hp := (List.isPrefixOf_iff_prefix).mp hb
  simp only [List.append_assoc] at hp
  exact not_prefix_append (by decide) (by decide) hp

theorem not_fieldFilter_line3 (measurement topic : String) :
    isFieldFilterLine (queryLine3 measurement topic) = false := by
  unfold isFieldFilterLine queryLine3
  apply Bool.eq_false_iff.mpr
  intro hb
  have hp := (List.isPrefixOf_iff_prefix).mp hb
  simp only [List.append_assoc] at hp
  exact not_prefix_append (by decide) (by decide) hp

theorem not_fieldFilter_line5 (aggregate_every : String) :
    isFieldFilterLine (queryLine5 aggregate_every) = false := by
  unfold isFieldFilterLine queryLine5
  apply Bool.eq_false_iff.mpr
  intro hb
  have hp := (List.isPrefixOf_iff_prefix).mp hb
  simp only [List.append_assoc] at hp
  exact not_prefix_append (by decide) (by decide) hp

theorem not_fieldFilter_line6 : isFieldFilterLine queryLine6 = false := by decide

theorem fieldFilter_line4 (fields : List String) (hf : fields ≠ []) :
    isFieldFilterLine (queryLine4 fields) = true := by
  unfold isFieldFilterLine queryLine4
  apply (List.isPrefixOf_iff_prefix).mpr
  have hpat : ("  |> filter(fn: (r) => r._field" : String).data
      = ("  |> filter(fn: (r) => " : String).data ++ ("r._field" : String).data := rfl
  rw [hpat, List.append_assoc, List.prefix_append_right_inj]
  cases fields with
  | nil => exact absurd rfl hf
  | cons f fs =>
    cases fs with
    | nil =>
      simp only [List.map_cons, List.map_nil, orJoin, String.data_append, List.append_assoc]
      exact prefix_extend _ (by decide)
    | cons g gs =>
      simp only [List.map_cons, orJoin, String.data_append, List.append_assoc]
      exact prefix_extend _ (by decide)

theorem not_agg_line1 (bucket : String) :
    isAggregateLine (queryLine1 bucket) = false := by
  unfold isAggregateLine queryLine1
  apply Bool.eq_false_iff.mpr
  intro hb
  have hp := (List.isPrefixOf_iff_prefix).mp hb
  simp only [List.append_assoc] at hp
  exact not_prefix_append (by decide) (by decide) hp

theorem not_agg_line2 (start stop : String) :
    isAggregateLine (queryLine2 start stop) = false := by
  unfold isAggregateLine queryLine2
  apply Bool.eq_false_iff.mpr
  intro hb
  have hp := (List.isPrefixOf_iff_prefix).mp hb
  simp only [List.append_assoc] at hp
  exact not_prefix_append (by decide) (by decide) hp

theorem not_agg_line3 (measurement topic : String) :
    isAggregateLine (queryLine3 measurement topic) = false := by
  unfold isAggregateLine queryLine3
  apply Bool.eq_false_iff.mpr
  intro hb
  have hp := (List.isPrefixOf_iff_prefix).mp hb
  simp only [List.append_assoc] at hp
  exact not_prefix_append (by decide) (by decide) hp

theorem not_agg_line4 (fields : List String) :
    isAggregateLine (queryLine4 fields) = false := by
  unfold isAggregateLine queryLine4
  apply Bool.eq_false_iff.mpr
  intro hb
  have hp := (List.isPrefixOf_iff_prefix).mp hb
  simp only [List.append_assoc] at hp
  exact not_prefix_append (by decide) (by decide) hp

theorem not_agg_line6 : isAggregateLine queryLine6 = false := by decide

theorem agg_line5 (aggregate_every : String) :
    isAggregateLine (queryLine5 aggregate_every) = true := by
  unfold isAggregateLine queryLine5
  apply (List.isPrefixOf_iff_prefix).mpr
  rw [List.append_assoc]
  exact prefix_extend _ (by decide)

/-- C1: for every non-empty fields list (and parameters free of newline
characters, which would break the query's line structure — the spec makes
well-formed string values the caller's responsibility), the builder succeeds
and the generated query contains exactly one field-filter clause — the
pipeline line `  |> filter(fn: (r) => ...)` over `r._field`, whose body is
exactly the terms `r._field == "<f>"`, one per element of `fields`, joined by
`" or "` in list order (`queryLine4`) — and exactly one aggregation clause —
the `aggregateWindow` line with the given window, arithmetic mean and
`createEmpty: false` so that empty windows are dropped (`queryLine5`). -/
theorem c1_one_field_filter_and_one_aggregation
    (start stop bucket measurement topic aggregate_every : String)
    (fields : List String) (rename_map : List (String × String))
    (hf : fields ≠ [])
    (hn1 : noNewline start) (hn2 : noNewline stop) (hn3 : noNewline bucket)
    (hn4 : noNewline measurement) (hn5 : noNewline topic)
    (hn6 : noNewline aggregate_every) (hn7 : ∀ f ∈ fields, noNewline f) :
    ∃ q, build_hourly_source_query start stop bucket measurement topic fields rename_map
        aggregate_every = .ok q
      ∧ (splitLines q.data).filter isFieldFilterLine = [queryLine4 fields]
      ∧ (splitLines q.data).filter isAggregateLine = [queryLine5 aggregate_every] := by
  have hfE : fields.isEmpty = false := by
    cases fields with
    | nil => exact absurd rfl hf
    | cons _ _ => rfl
  refine ⟨_, build_query_eq start stop bucket measurement topic aggregate_every fields
    rename_map hfE, ?_, ?_⟩
  all_goals {
    have m1 : '\n' ∉ queryLine1 bucket :=
      List.not_mem_append (List.not_mem_append (by decide) hn3) (by decide)
    have m2 : '\n' ∉ queryLine2 start stop :=
      List.not_mem_append (List.not_mem_append (List.not_mem_append
        (List.not_mem_append (by decide) hn1) (by decide)) hn2) (by decide)
    have m3 : '\n' ∉ queryLine3 measurement topic :=
      List.not_mem_append (List.not_mem_append (List.not_mem_append
        (List.not_mem_append (by decide) hn4) (by decide)) hn5) (by decide)
    have m4 : '\n' ∉ queryLine4 fields :=
      List.not_mem_append (List.not_mem_append (by decide) (orJoin_no_nl fields hn7))
        (by decide)
    have m5 : '\n' ∉ queryLine5 aggregate_every :=
      List.not_mem_append (List.not_mem_append (by decide) hn6) (by decide)
    have m6 : '\n' ∉ queryLine6 := by decide
    have hlines : splitLines (built_hourly_query start stop bucket measurement topic
          fields aggregate_every).data
        = [queryLine1 bucket, queryLine2 start stop, queryLine3 measurement topic,
            queryLine4 fields, queryLine5 aggregate_every, queryLine6] := by
      rw [built_query_data, splitLines_append _ _ m1, splitLines_append _ _ m2,
        splitLines_append _ _ m3, splitLines_append _ _ m4, splitLines_append _ _ m5,
        splitLines_no_nl _ m6]
    rw [hlines]
    simp only [List.filter_cons, List.filter_nil, not_fieldFilter_line1,
      not_fieldFilter_line2, not_fieldFilter_line3, fieldFilter_line4 fields hf,
      not_fieldFilter_line5, not_fieldFilter_line6, not_agg_line1, not_agg_line2,
      not_agg_line3, not_agg_line4, agg_line5, not_agg_line6, if_true, if_false,
      Bool.false_eq_true, ite_false, ite_true]
  }

/-- C1 witness: the concrete field list `[CO, TEMP]` with window `1h` yields a
query whose unique field-filter line carries the two OR-joined terms and whose
unique aggregation line carries the `1h` window. -/
theorem c1_witness :
    ∃ q, build_hourly_source_query "-7d" "now()" "bkt" "meas" "topicA"
        ["CO", "TEMP"] [] "1h" = .ok q
      ∧ (splitLines q.data).filter isFieldFilterLine = [queryLine4 ["CO", "TEMP"]]
      ∧ (splitLines q.data).filter isAggregateLine = [queryLine5 "1h"] :=
  c1_one_field_filter_and_one_aggregation "-7d" "now()" "bkt" "meas" "topicA" "1h"
    ["CO", "TEMP"] [] (by decide) (by decide) (by decide) (by decide) (by decide)
    (by decide) (by decide) (by decide)

end UalLubwCoExport
